import Mathlib

/-!
Verification of the SSR screenshot test runner
(`src/universal-app/ssr-screenshot-test-runner.ts`).

The runner is embedded shallowly as a pure function from a run configuration
to a trace of observable events (browser-automation calls, file writes,
console messages) together with the process exit code.  External
collaborators (the PNG codec from `fast-png`, the `pixelmatch` pixel-diff
primitive, Node's `path.join`) are modelled from their documented contracts;
the control flow of `main`, `updateBrowserViewportToMatchContent` and the
module-level startup code is translated line by line from the source.
-/

/-- A decoded raster image: width, height and a flat byte sequence
(RGBA, 4 bytes per pixel, row-major), as produced by the PNG codec. -/
structure PixelBuffer where
  width : Nat
  height : Nat
  data : List Nat
  deriving Repr, DecidableEq

/-- The PixelBuffer invariant: the data holds exactly `width * height`
RGBA pixels. -/
def PixelBuffer.valid (b : PixelBuffer) : Prop :=
  b.data.length = b.width * b.height * 4

instance (b : PixelBuffer) : Decidable b.valid := by
  unfold PixelBuffer.valid; infer_instance

/-- The 4 bytes of pixel `i` of a flat RGBA byte sequence. -/
def pixelAt (data : List Nat) (i : Nat) : List Nat :=
  (data.drop (4 * i)).take 4

/-- Modelled from the spec: the pixel-diff collaborator returns the count of
differing pixels of two equal-sized buffers (`pixelmatch` is an external npm
dependency, not part of this repository). -/
def diffCount (img1 img2 : List Nat) (width height : Nat) : Nat :=
  ((List.range (width * height)).filter
    (fun i => decide (pixelAt img1 i ≠ pixelAt img2 i))).length

/-- Modelled from the spec: the per-pixel difference buffer the pixel-diff
collaborator draws into its output argument (differing pixels marked red,
matching pixels kept as a neutral rendering of the first image). -/
def diffImage (img1 img2 : List Nat) (width height : Nat) : List Nat :=
  ((List.range (width * height)).map
    (fun i =>
      if pixelAt img1 i = pixelAt img2 i
      then (pixelAt img1 i).take 3 ++ [255]
      else [255, 0, 0, 255])).flatten

/-- Modelled from the spec: the pixel-diff collaborator
`diff(bufferA, bufferB, outDiffBuffer, width, height) -> differingPixelCount`.
It requires equal dimensions: like the real `pixelmatch`, it raises an error
when the two data arrays have different lengths, or when the data length does
not match the supplied width and height; otherwise it returns the count of
differing pixels and fills the difference buffer. -/
def pixelmatch (img1 img2 _out : List Nat) (width height : Nat) :
    Except String (Nat × List Nat) :=
  if img1.length ≠ img2.length then
    Except.error "Image sizes do not match."
  else if img1.length ≠ width * height * 4 then
    Except.error "Image data size does not match width and height."
  else
    Except.ok (diffCount img1 img2 width height, diffImage img1 img2 width height)

/-- Observable events of one run of the screenshot test runner: the
browser-automation calls (in the order the source awaits them), file-system
writes, and console output. -/
inductive Event where
  | browserLaunch : Event
  | newPage : Event
  | gotoPage : Event
  | evalScrollHeight : Nat → Event
  | setViewport : Nat → Nat → Event
  | screenshot : Event
  | browserClose : Event
  | writeFile : String → List Nat → Event
  | invokeDiff : Event
  | logDiffPerc : Nat → Nat → Event
  | logInfo : String → Event
  | logError : String → Event
  deriving Repr, DecidableEq

/-- Which of the awaited external operations of `main` fail (reject their
promise) on this run.  A `true` field means the corresponding call throws. -/
structure Faults where
  renderFails : Bool
  launchFails : Bool
  newPageFails : Bool
  gotoFails : Bool
  evaluateFails : Bool
  setViewportFails : Bool
  screenshotFails : Bool
  deriving Repr, DecidableEq

/-- The fault assignment of a run on which every external call succeeds. -/
def Faults.noFailures : Faults :=
  ⟨false, false, false, false, false, false, false⟩

/-- Inputs of one invocation of `main`, resolved before it starts: the CLI
arguments, the (startup-computed) diff path and test target, the bytes the
environment would produce at each external call, and the fault assignment. -/
structure RunConfig where
  goldenPath : String
  approveGolden : Bool
  bodyScrollHeight : Nat
  screenshotBytes : List Nat
  goldenFile : Option (List Nat)
  testTarget : String
  screenshotDiffPath : String
  faults : Faults
  deriving Repr, DecidableEq

/-- Width of the browser for the screenshot (`screenshotBrowserWidth`). -/
def screenshotBrowserWidth : Nat := 1920

/-- The `.catch` handler installed on `main`: log the error and
`process.exit(1)`. -/
def catchAndExit (trace : List Event) : List Event × Nat :=
  (trace ++ [Event.logError "uncaught error"], 1)

/-- Shallow embedding of `main(goldenPath, approveGolden)` together with its
`.catch` handler, as a function from the run configuration to the event trace
and the process exit code.  The PNG codec (`decode` / `encode` of `fast-png`)
is an external collaborator and is passed in as a pair of functions.  Every
step mirrors one statement of the source, in source order:
render, `launch`, `newPage`, `goto`, `updateBrowserViewportToMatchContent`
(one `evaluate` of `document.body.scrollHeight` followed by one
`setViewport`), `screenshot`, `browser.close()`, then either the approve
branch (`writeFileSync` of the golden) or the comparison branch
(`decode` both buffers, call `pixelmatch`, log the diff percentage, and on a
nonzero count write the diff image and report failure). -/
def mainRun (decode : List Nat → PixelBuffer) (encodePng : PixelBuffer → List Nat)
    (cfg : RunConfig) : List Event × Nat :=
  if cfg.faults.renderFails then catchAndExit [] else
  if cfg.faults.launchFails then catchAndExit [] else
  let t1 := [Event.browserLaunch]
  if cfg.faults.newPageFails then catchAndExit t1 else
  let t2 := t1 ++ [Event.newPage]
  if cfg.faults.gotoFails then catchAndExit t2 else
  let t3 := t2 ++ [Event.gotoPage]
  if cfg.faults.evaluateFails then catchAndExit t3 else
  let t4 := t3 ++ [Event.evalScrollHeight cfg.bodyScrollHeight]
  if cfg.faults.setViewportFails then catchAndExit t4 else
  let t5 := t4 ++ [Event.setViewport screenshotBrowserWidth cfg.bodyScrollHeight]
  if cfg.faults.screenshotFails then catchAndExit t5 else
  let t6 := t5 ++ [Event.screenshot]
  let t7 := t6 ++ [Event.browserClose]
  if cfg.approveGolden then
    (t7 ++ [Event.writeFile cfg.goldenPath cfg.screenshotBytes,
            Event.logInfo "Golden screenshot updated."], 0)
  else
    let currentScreenshot := decode cfg.screenshotBytes
    match cfg.goldenFile with
    | none => catchAndExit t7
    | some goldenBytes =>
        let goldenScreenshot := decode goldenBytes
        let diffImageData := List.replicate currentScreenshot.data.length 0
        let t8 := t7 ++ [Event.invokeDiff]
        match pixelmatch goldenScreenshot.data currentScreenshot.data diffImageData
            currentScreenshot.width currentScreenshot.height with
        | Except.error _ => catchAndExit t8
        | Except.ok result =>
            let numDiffPixels := result.1
            let t9 := t8 ++ [Event.logDiffPerc numDiffPixels
              (currentScreenshot.width * currentScreenshot.height)]
            if numDiffPixels ≠ 0 then
              (t9 ++ [Event.writeFile cfg.screenshotDiffPath
                        (encodePng ⟨currentScreenshot.width, currentScreenshot.height,
                          result.2⟩),
                      Event.logError ("Expected golden image to match. " ++
                        toString numDiffPixels ++ " pixels do not match."),
                      Event.logError ("Command to update the golden: yarn bazel run " ++
                        cfg.testTarget ++ ".accept"),
                      Event.logError ("See diff: file://" ++ cfg.screenshotDiffPath)], 1)
            else
              (t9 ++ [Event.logInfo "Screenshot golden matches."], 0)

/-- Modelled from Node's `path.join`: it throws a `TypeError` when handed a
non-string (the TypeScript non-null assertion on
`process.env.TEST_UNDECLARED_OUTPUTS_DIR!` is erased at runtime, so a missing
variable reaches `join` as `undefined`). -/
def pathJoin (dir : Option String) (file : String) : Except String String :=
  match dir with
  | none => Except.error "The path argument must be of type string."
  | some d => Except.ok (d ++ "/" ++ file)

/-- The approve-mode flag: `const approveGolden = args[1] === 'true'`. -/
def approveGoldenFlag (arg : Option String) : Bool :=
  arg == some "true"

/-- The environment the module-level code reads at startup. -/
structure StartupEnv where
  webTestMetadata : Option String
  testUndeclaredOutputsDir : Option String
  argv : List String
  deriving Repr, DecidableEq

/-- Outcome of evaluating the module-level code: an early `process.exit(1)`
(missing `WEB_TEST_METADATA`), an uncaught exception during module
evaluation, or a launch of `main` with the parsed arguments and the
computed diff path. -/
inductive StartupResult where
  | earlyExit : Nat → StartupResult
  | startupError : StartupResult
  | launched : Option String → Bool → String → StartupResult
  deriving Repr, DecidableEq

/-- Shallow embedding of the module-level startup code, in source order:
check `WEB_TEST_METADATA` (exit 1 if undefined), compute
`screenshotDiffPath = join(testOutputDirectory, 'image-diff.png')`, and only
then parse `args` and the approve flag inside the `require.main` block.
`argv` holds `process.argv.slice(2)`. -/
def startup (env : StartupEnv) : StartupResult :=
  if env.webTestMetadata.isNone then StartupResult.earlyExit 1
  else
    match pathJoin env.testUndeclaredOutputsDir "image-diff.png" with
    | Except.error _ => StartupResult.startupError
    | Except.ok diffPath =>
        StartupResult.launched env.argv.head?
          (approveGoldenFlag (env.argv.get? 1)) diffPath

/-- Recognizer for viewport-resize events. -/
def isSetViewport : Event → Bool
  | Event.setViewport _ _ => true
  | _ => false

/-- A concrete codec for concrete runs: a byte sequence `w :: h :: data`
decodes to the buffer `⟨w, h, data⟩`. -/
def toyDecode (bytes : List Nat) : PixelBuffer :=
  match bytes with
  | w :: h :: data => ⟨w, h, data⟩
  | _ => ⟨0, 0, []⟩

/-- The inverse concrete codec. -/
def toyEncode (b : PixelBuffer) : List Nat :=
  b.width :: b.height :: b.data

/-- One solid red RGBA pixel. -/
def redPixel : List Nat := [255, 0, 0, 255]

/-- One solid blue RGBA pixel. -/
def bluePixel : List Nat := [0, 0, 255, 255]

/-- Toy-encoded 2×2 solid red image. -/
def golden2x2 : List Nat :=
  2 :: 2 :: (redPixel ++ redPixel ++ redPixel ++ redPixel)

/-- Toy-encoded 2×1 solid red image. -/
def red2x1 : List Nat := 2 :: 1 :: (redPixel ++ redPixel)

/-- Toy-encoded 2×1 image, one red and one blue pixel. -/
def redBlue2x1 : List Nat := 2 :: 1 :: (redPixel ++ bluePixel)

/-- Concrete verify-mode run whose golden (2×2) and candidate (2×1) have
different dimensions. -/
def cfgDimMismatch : RunConfig :=
  { goldenPath := "goldens/kitchen-sink-prerendered.png"
    approveGolden := false
    bodyScrollHeight := 50
    screenshotBytes := red2x1
    goldenFile := some golden2x2
    testTarget := "screenshot_test"
    screenshotDiffPath := "outputs/image-diff.png"
    faults := Faults.noFailures }

/-- Concrete verify-mode run whose golden and candidate are identical 2×1
red images. -/
def cfgMatch : RunConfig :=
  { cfgDimMismatch with goldenFile := some red2x1, screenshotBytes := red2x1 }

/-- Concrete verify-mode run whose candidate differs from the golden in
exactly one pixel. -/
def cfgOnePixel : RunConfig :=
  { cfgDimMismatch with goldenFile := some red2x1, screenshotBytes := redBlue2x1 }

/-- Concrete approve-mode run. -/
def cfgApprove : RunConfig :=
  { cfgDimMismatch with approveGolden := true }

/-- Concrete run on which the navigation (`page.goto`) call fails. -/
def cfgGotoFails : RunConfig :=
  { cfgMatch with faults := { Faults.noFailures with gotoFails := true } }

/-- Does any of the capture-pipeline calls of this run fail? -/
def anyCaptureFault (f : Faults) : Bool :=
  f.renderFails || f.launchFails || f.newPageFails || f.gotoFails ||
  f.evaluateFails || f.setViewportFails || f.screenshotFails

/-- Comparing a byte sequence against itself yields a differing-pixel count
of zero. -/
theorem diffCount_self (d : List Nat) (w h : Nat) : diffCount d d w h = 0 := by
  simp [diffCount]

/-- The pixel-diff primitive succeeds on equal-length data matching the
supplied dimensions, returning the differing-pixel count and the difference
buffer. -/
theorem pixelmatch_ok (img1 img2 out : List Nat) (w h : Nat)
    (h1 : img1.length = img2.length) (h2 : img1.length = w * h * 4) :
    pixelmatch img1 img2 out w h =
      Except.ok (diffCount img1 img2 w h, diffImage img1 img2 w h) := by
  unfold pixelmatch
  rw [if_neg (by simp [h1]), if_neg (by simp [h2])]

/-- Claim C8: for every valid PixelBuffer, comparing the buffer against an
identical copy of itself succeeds with a differing-pixel count of 0 (the
`Match` outcome). -/
theorem c8_self_compare_match (b : PixelBuffer) (hv : b.valid) :
    pixelmatch b.data b.data (List.replicate b.data.length 0) b.width b.height =
      Except.ok (0, diffImage b.data b.data b.width b.height) := by
  rw [pixelmatch_ok b.data b.data _ b.width b.height rfl hv, diffCount_self]

/-- Witness for C8 at the concrete 1×1 black buffer. -/
theorem c8_self_compare_match_witness :
    (⟨1, 1, [0, 0, 0, 255]⟩ : PixelBuffer).valid ∧
    pixelmatch [0, 0, 0, 255] [0, 0, 0, 255] (List.replicate 4 0) 1 1 =
      Except.ok (0, diffImage [0, 0, 0, 255] [0, 0, 0, 255] 1 1) :=
  ⟨by decide, c8_self_compare_match ⟨1, 1, [0, 0, 0, 255]⟩ (by decide)⟩

/-- Claim C9: the approve mode is enabled exactly when the second CLI
argument is the string `true`; `false`, `True`, `1` and an absent argument
all leave the run in verify mode. -/
theorem c9_approve_flag_strict :
    (∀ a : Option String, approveGoldenFlag a = true ↔ a = some "true") ∧
    approveGoldenFlag (some "false") = false ∧
    approveGoldenFlag (some "True") = false ∧
    approveGoldenFlag (some "1") = false ∧
    approveGoldenFlag none = false := by
  refine ⟨fun a => ?_, by decide, by decide, by decide, by decide⟩
  simp [approveGoldenFlag]

/-- Claim C10: when the diff-output-directory environment variable is
undefined, startup never reaches `main` (for any argument vector, including
approve-mode ones): it either exits 1 at the metadata check or fails while
computing the diff path, before the approve flag is examined. -/
theorem c10_outputs_dir_required (env : StartupEnv)
    (hd : env.testUndeclaredOutputsDir = none) :
    (startup env = StartupResult.earlyExit 1 ∨
      startup env = StartupResult.startupError) ∧
    ∀ g a p, startup env ≠ StartupResult.launched g a p := by
  unfold startup pathJoin
  rw [hd]
  cases hmd : env.webTestMetadata <;> simp

/-- Witness for C10: an approve-mode invocation with the output directory
variable undefined fails at startup. -/
theorem c10_outputs_dir_required_witness :
    (⟨some "meta", none, ["golden.png", "true"]⟩ : StartupEnv).testUndeclaredOutputsDir
        = none ∧
    ((startup ⟨some "meta", none, ["golden.png", "true"]⟩ = StartupResult.earlyExit 1 ∨
      startup ⟨some "meta", none, ["golden.png", "true"]⟩ = StartupResult.startupError) ∧
    ∀ g a p, startup ⟨some "meta", none, ["golden.png", "true"]⟩ ≠
      StartupResult.launched g a p) :=
  ⟨rfl, c10_outputs_dir_required ⟨some "meta", none, ["golden.png", "true"]⟩ rfl⟩

/-- Counterexample to claim C1: on a concrete run whose golden is 2×2 and
whose candidate is 2×1, the pixel-diff primitive is invoked anyway (there is
no dimension check in `main`); the run fails only because the primitive
itself raises a size error. -/
theorem c1_counterexample :
    Event.invokeDiff ∈ (mainRun toyDecode toyEncode cfgDimMismatch).1 ∧
    (mainRun toyDecode toyEncode cfgDimMismatch).2 = 1 := by decide

/-- Claim C1 (amended): the comparison step performs no dimension check of
its own: in every fault-free verify run it hands both decoded buffers to the
pixel-diff primitive, and when their byte lengths differ the primitive's own
size error aborts the run with exit code 1 (no `DimensionMismatch` result is
ever produced without invoking the primitive). -/
theorem c1_no_dimension_check (decode : List Nat → PixelBuffer)
    (encodePng : PixelBuffer → List Nat) (cfg : RunConfig) (g : List Nat)
    (hap : cfg.approveGolden = false) (hf : cfg.faults = Faults.noFailures)
    (hg : cfg.goldenFile = some g)
    (hlen : (decode g).data.length ≠ (decode cfg.screenshotBytes).data.length) :
    Event.invokeDiff ∈ (mainRun decode encodePng cfg).1 ∧
    (mainRun decode encodePng cfg).2 = 1 := by
  have hpm : pixelmatch (decode g).data (decode cfg.screenshotBytes).data
      (List.replicate (decode cfg.screenshotBytes).data.length 0)
      (decode cfg.screenshotBytes).width (decode cfg.screenshotBytes).height =
      Except.error "Image sizes do not match." := by
    unfold pixelmatch
    rw [if_pos hlen]
  simp [mainRun, hap, hf, hg, Faults.noFailures, hpm, catchAndExit]

/-- Witness for the amended C1 at the concrete dimension-mismatch run. -/
theorem c1_no_dimension_check_witness :
    cfgDimMismatch.approveGolden = false ∧
    cfgDimMismatch.faults = Faults.noFailures ∧
    cfgDimMismatch.goldenFile = some golden2x2 ∧
    (toyDecode golden2x2).data.length ≠
      (toyDecode cfgDimMismatch.screenshotBytes).data.length ∧
    (Event.invokeDiff ∈ (mainRun toyDecode toyEncode cfgDimMismatch).1 ∧
      (mainRun toyDecode toyEncode cfgDimMismatch).2 = 1) :=
  ⟨rfl, rfl, rfl, by decide,
    c1_no_dimension_check toyDecode toyEncode cfgDimMismatch golden2x2 rfl rfl rfl
      (by decide)⟩

/-- Counterexample to claim C5: on a concrete fault-free run, the
content-height measurement appears in the trace before any viewport resize,
so the height is not measured with the page width already set to the fixed
viewport width. -/
theorem c5_counterexample :
    Event.evalScrollHeight 50 ∈
      ((mainRun toyDecode toyEncode cfgMatch).1.takeWhile
        (fun e => !(isSetViewport e))) := by decide

/-- Claim C5 (amended): the content's natural height is measured before any
viewport resize (i.e. at the page's initial width, not at the fixed viewport
width); the viewport is then resized to exactly
`{width: screenshotBrowserWidth, height: measuredHeight}` before the
screenshot is taken. -/
theorem c5_measure_then_resize (decode : List Nat → PixelBuffer)
    (encodePng : PixelBuffer → List Nat) (cfg : RunConfig)
    (hf : cfg.faults = Faults.noFailures) :
    (mainRun decode encodePng cfg).1.take 7 =
      [Event.browserLaunch, Event.newPage, Event.gotoPage,
       Event.evalScrollHeight cfg.bodyScrollHeight,
       Event.setViewport screenshotBrowserWidth cfg.bodyScrollHeight,
       Event.screenshot, Event.browserClose] := by
  unfold mainRun
  rw [hf]
  cases hap : cfg.approveGolden
  · cases hgf : cfg.goldenFile
    · simp [Faults.noFailures, catchAndExit]
    · simp only [hgf]
      simp [Faults.noFailures]
      split
      · simp [catchAndExit]
      · split <;> simp
  · simp [Faults.noFailures]

/-- Witness for the amended C5 at a concrete fault-free run. -/
theorem c5_measure_then_resize_witness :
    cfgMatch.faults = Faults.noFailures ∧
    (mainRun toyDecode toyEncode cfgMatch).1.take 7 =
      [Event.browserLaunch, Event.newPage, Event.gotoPage,
       Event.evalScrollHeight cfgMatch.bodyScrollHeight,
       Event.setViewport screenshotBrowserWidth cfgMatch.bodyScrollHeight,
       Event.screenshot, Event.browserClose] :=
  ⟨rfl, c5_measure_then_resize toyDecode toyEncode cfgMatch rfl⟩

/-- Counterexample to claim C2: on a concrete run where navigation
(`page.goto`) fails, the browser handle's close operation is never invoked
(count 0, not 1) before the run reports exit code 1 — `main` has no
try/finally around the browser acquisition. -/
theorem c2_counterexample :
    (mainRun toyDecode toyEncode cfgGotoFails).1.count Event.browserClose = 0 ∧
    (mainRun toyDecode toyEncode cfgGotoFails).2 = 1 := by decide

/-- Claim C2 (amended): the browser handle's close operation is invoked
exactly once when rendering and every capture step (launch, newPage, goto,
measure, resize, screenshot) succeed, and zero times when any of them fails:
release is not guaranteed on failing paths. -/
theorem c2_close_iff_capture_succeeds (decode : List Nat → PixelBuffer)
    (encodePng : PixelBuffer → List Nat) (cfg : RunConfig) :
    (mainRun decode encodePng cfg).1.count Event.browserClose =
      if anyCaptureFault cfg.faults then 0 else 1 := by
  obtain ⟨gp, ag, bh, sb, gf, tt, dp, ⟨f1, f2, f3, f4, f5, f6, f7⟩⟩ := cfg
  cases f1 <;> cases f2 <;> cases f3 <;> cases f4 <;> cases f5 <;> cases f6 <;> cases f7 <;>
    try rfl
  cases ag
  · cases gf
    · rfl
    · unfold mainRun
      repeat' split
      all_goals first | rfl | simp_all [anyCaptureFault]
      all_goals split
      all_goals first | rfl | (split <;> rfl)
  · rfl

/-- Claim C4: in every approve-mode run whose capture succeeds, the golden
path is overwritten with the captured screenshot bytes, the run exits 0, the
pixel-diff primitive is never invoked, and the golden file is the only file
written (in particular no diff artifact). -/
theorem c4_approve_overwrites_golden (decode : List Nat → PixelBuffer)
    (encodePng : PixelBuffer → List Nat) (cfg : RunConfig)
    (hap : cfg.approveGolden = true) (hf : cfg.faults = Faults.noFailures) :
    Event.writeFile cfg.goldenPath cfg.screenshotBytes ∈
      (mainRun decode encodePng cfg).1 ∧
    (mainRun decode encodePng cfg).2 = 0 ∧
    Event.invokeDiff ∉ (mainRun decode encodePng cfg).1 ∧
    ∀ p b, Event.writeFile p b ∈ (mainRun decode encodePng cfg).1 →
      p = cfg.goldenPath ∧ b = cfg.screenshotBytes := by
  refine ⟨?_, ?_, ?_, ?_⟩
  · simp [mainRun, hap, hf, Faults.noFailures]
  · simp [mainRun, hap, hf, Faults.noFailures]
  · simp [mainRun, hap, hf, Faults.noFailures]
  · intro p b hmem
    simp [mainRun, hap, hf, Faults.noFailures] at hmem
    exact hmem

/-- Witness for C4 at a concrete approve-mode run. -/
theorem c4_approve_overwrites_golden_witness :
    cfgApprove.approveGolden = true ∧
    cfgApprove.faults = Faults.noFailures ∧
    (Event.writeFile cfgApprove.goldenPath cfgApprove.screenshotBytes ∈
      (mainRun toyDecode toyEncode cfgApprove).1 ∧
    (mainRun toyDecode toyEncode cfgApprove).2 = 0 ∧
    Event.invokeDiff ∉ (mainRun toyDecode toyEncode cfgApprove).1 ∧
    ∀ p b, Event.writeFile p b ∈ (mainRun toyDecode toyEncode cfgApprove).1 →
      p = cfgApprove.goldenPath ∧ b = cfgApprove.screenshotBytes) :=
  ⟨rfl, rfl, c4_approve_overwrites_golden toyDecode toyEncode cfgApprove rfl rfl⟩

/-- Claim C3: in every fault-free verify run comparing equal-sized valid
buffers, the exit code is 1 exactly when the differing-pixel count is
nonzero and 0 when it is zero; the exit code is a function of the count
alone, so the logged diff-percentage value never influences it. -/
theorem c3_fail_iff_nonzero_count (decode : List Nat → PixelBuffer)
    (encodePng : PixelBuffer → List Nat) (cfg : RunConfig) (g : List Nat)
    (hap : cfg.approveGolden = false) (hf : cfg.faults = Faults.noFailures)
    (hg : cfg.goldenFile = some g)
    (hw : (decode g).width = (decode cfg.screenshotBytes).width)
    (hh : (decode g).height = (decode cfg.screenshotBytes).height)
    (hv1 : (decode g).valid) (hv2 : (decode cfg.screenshotBytes).valid) :
    (mainRun decode encodePng cfg).2 =
      if diffCount (decode g).data (decode cfg.screenshotBytes).data
          (decode cfg.screenshotBytes).width (decode cfg.screenshotBytes).height = 0
      then 0 else 1 := by
  have hv1' : (decode g).data.length =
      (decode g).width * (decode g).height * 4 := hv1
  have hv2' : (decode cfg.screenshotBytes).data.length =
      (decode cfg.screenshotBytes).width * (decode cfg.screenshotBytes).height * 4 :=
    hv2
  have hlen : (decode g).data.length = (decode cfg.screenshotBytes).data.length := by
    rw [hv1', hv2', hw, hh]
  have hlen2 : (decode g).data.length =
      (decode cfg.screenshotBytes).width * (decode cfg.screenshotBytes).height * 4 := by
    rw [hlen, hv2']
  have hpm := pixelmatch_ok (decode g).data (decode cfg.screenshotBytes).data
    (List.replicate (decode cfg.screenshotBytes).data.length 0)
    (decode cfg.screenshotBytes).width (decode cfg.screenshotBytes).height hlen hlen2
  by_cases hn : diffCount (decode g).data (decode cfg.screenshotBytes).data
      (decode cfg.screenshotBytes).width (decode cfg.screenshotBytes).height = 0 <;>
    simp [mainRun, hap, hf, hg, Faults.noFailures, hpm, hn]

/-- Witness for C3 at the concrete one-differing-pixel run. -/
theorem c3_fail_iff_nonzero_count_witness :
    cfgOnePixel.approveGolden = false ∧
    cfgOnePixel.faults = Faults.noFailures ∧
    cfgOnePixel.goldenFile = some red2x1 ∧
    (toyDecode red2x1).width = (toyDecode cfgOnePixel.screenshotBytes).width ∧
    (toyDecode red2x1).height = (toyDecode cfgOnePixel.screenshotBytes).height ∧
    (toyDecode red2x1).valid ∧ (toyDecode cfgOnePixel.screenshotBytes).valid ∧
    (mainRun toyDecode toyEncode cfgOnePixel).2 =
      if diffCount (toyDecode red2x1).data (toyDecode cfgOnePixel.screenshotBytes).data
          (toyDecode cfgOnePixel.screenshotBytes).width
          (toyDecode cfgOnePixel.screenshotBytes).height = 0
      then 0 else 1 :=
  ⟨rfl, rfl, rfl, rfl, rfl, by decide, by decide,
    c3_fail_iff_nonzero_count toyDecode toyEncode cfgOnePixel red2x1 rfl rfl rfl rfl rfl
      (by decide) (by decide)⟩

/-- Claim C6: in every fault-free verify run over equal-sized valid buffers
with a nonzero differing-pixel count, a diff artifact is written to the
configured diff path and the run exits 1 after logging the differing-pixel
count, the approval command, and a pointer to the diff artifact. -/
theorem c6_mismatch_reporting (decode : List Nat → PixelBuffer)
    (encodePng : PixelBuffer → List Nat) (cfg : RunConfig) (g : List Nat)
    (hap : cfg.approveGolden = false) (hf : cfg.faults = Faults.noFailures)
    (hg : cfg.goldenFile = some g)
    (hw : (decode g).width = (decode cfg.screenshotBytes).width)
    (hh : (decode g).height = (decode cfg.screenshotBytes).height)
    (hv1 : (decode g).valid) (hv2 : (decode cfg.screenshotBytes).valid)
    (hn : diffCount (decode g).data (decode cfg.screenshotBytes).data
        (decode cfg.screenshotBytes).width (decode cfg.screenshotBytes).height ≠ 0) :
    (∃ b, Event.writeFile cfg.screenshotDiffPath b ∈ (mainRun decode encodePng cfg).1) ∧
    (mainRun decode encodePng cfg).2 = 1 ∧
    Event.logError ("Expected golden image to match. " ++
        toString (diffCount (decode g).data (decode cfg.screenshotBytes).data
          (decode cfg.screenshotBytes).width (decode cfg.screenshotBytes).height) ++
        " pixels do not match.") ∈ (mainRun decode encodePng cfg).1 ∧
    Event.logError ("Command to update the golden: yarn bazel run " ++
        cfg.testTarget ++ ".accept") ∈ (mainRun decode encodePng cfg).1 ∧
    Event.logError ("See diff: file://" ++ cfg.screenshotDiffPath) ∈
      (mainRun decode encodePng cfg).1 := by
  have hv1' : (decode g).data.length =
      (decode g).width * (decode g).height * 4 := hv1
  have hv2' : (decode cfg.screenshotBytes).data.length =
      (decode cfg.screenshotBytes).width * (decode cfg.screenshotBytes).height * 4 :=
    hv2
  have hlen : (decode g).data.length = (decode cfg.screenshotBytes).data.length := by
    rw [hv1', hv2', hw, hh]
  have hlen2 : (decode g).data.length =
      (decode cfg.screenshotBytes).width * (decode cfg.screenshotBytes).height * 4 := by
    rw [hlen, hv2']
  have hpm := pixelmatch_ok (decode g).data (decode cfg.screenshotBytes).data
    (List.replicate (decode cfg.screenshotBytes).data.length 0)
    (decode cfg.screenshotBytes).width (decode cfg.screenshotBytes).height hlen hlen2
  simp [mainRun, hap, hf, hg, Faults.noFailures, hpm, hn]

/-- Witness for C6 at the concrete one-differing-pixel run. -/
theorem c6_mismatch_reporting_witness :
    cfgOnePixel.approveGolden = false ∧
    cfgOnePixel.faults = Faults.noFailures ∧
    cfgOnePixel.goldenFile = some red2x1 ∧
    diffCount (toyDecode red2x1).data (toyDecode cfgOnePixel.screenshotBytes).data
      (toyDecode cfgOnePixel.screenshotBytes).width
      (toyDecode cfgOnePixel.screenshotBytes).height ≠ 0 ∧
    ((∃ b, Event.writeFile cfgOnePixel.screenshotDiffPath b ∈
        (mainRun toyDecode toyEncode cfgOnePixel).1) ∧
    (mainRun toyDecode toyEncode cfgOnePixel).2 = 1 ∧
    Event.logError ("Expected golden image to match. " ++
        toString (diffCount (toyDecode red2x1).data
          (toyDecode cfgOnePixel.screenshotBytes).data
          (toyDecode cfgOnePixel.screenshotBytes).width
          (toyDecode cfgOnePixel.screenshotBytes).height) ++
        " pixels do not match.") ∈ (mainRun toyDecode toyEncode cfgOnePixel).1 ∧
    Event.logError ("Command to update the golden: yarn bazel run " ++
        cfgOnePixel.testTarget ++ ".accept") ∈
      (mainRun toyDecode toyEncode cfgOnePixel).1 ∧
    Event.logError ("See diff: file://" ++ cfgOnePixel.screenshotDiffPath) ∈
      (mainRun toyDecode toyEncode cfgOnePixel).1) :=
  ⟨rfl, rfl, rfl, by decide,
    c6_mismatch_reporting toyDecode toyEncode cfgOnePixel red2x1 rfl rfl rfl rfl rfl
      (by decide) (by decide) (by decide)⟩

/-- Claim C7: in every verify-mode run (approve flag unset, diff path
distinct from the golden path) the golden file is never written, on any
execution path; and on fault-free runs over equal-sized valid buffers the
diff artifact is written if and only if the differing-pixel count is
nonzero. -/
theorem c7_verify_golden_readonly (decode : List Nat → PixelBuffer)
    (encodePng : PixelBuffer → List Nat) (cfg : RunConfig)
    (hap : cfg.approveGolden = false)
    (hne : cfg.screenshotDiffPath ≠ cfg.goldenPath) :
    (∀ b, Event.writeFile cfg.goldenPath b ∉ (mainRun decode encodePng cfg).1) ∧
    (∀ g, cfg.goldenFile = some g → cfg.faults = Faults.noFailures →
      (decode g).width = (decode cfg.screenshotBytes).width →
      (decode g).height = (decode cfg.screenshotBytes).height →
      (decode g).valid → (decode cfg.screenshotBytes).valid →
      ((∃ b, Event.writeFile cfg.screenshotDiffPath b ∈
          (mainRun decode encodePng cfg).1) ↔
        diffCount (decode g).data (decode cfg.screenshotBytes).data
          (decode cfg.screenshotBytes).width
          (decode cfg.screenshotBytes).height ≠ 0)) := by
  constructor
  · have hne' : cfg.goldenPath ≠ cfg.screenshotDiffPath := Ne.symm hne
    intro b
    obtain ⟨gp, ag, bh, sb, gf, tt, dp, ⟨f1, f2, f3, f4, f5, f6, f7⟩⟩ := cfg
    replace hap : ag = false := hap
    subst hap
    cases f1 <;> cases f2 <;> cases f3 <;> cases f4 <;> cases f5 <;> cases f6 <;> cases f7 <;>
      try (simp [mainRun, catchAndExit])
    cases gf
    · simp
    · repeat' split
      all_goals simp_all [catchAndExit]
  · intro g hg hf hw hh hv1 hv2
    have hv1' : (decode g).data.length =
        (decode g).width * (decode g).height * 4 := hv1
    have hv2' : (decode cfg.screenshotBytes).data.length =
        (decode cfg.screenshotBytes).width * (decode cfg.screenshotBytes).height * 4 :=
      hv2
    have hlen : (decode g).data.length = (decode cfg.screenshotBytes).data.length := by
      rw [hv1', hv2', hw, hh]
    have hlen2 : (decode g).data.length =
        (decode cfg.screenshotBytes).width * (decode cfg.screenshotBytes).height * 4 := by
      rw [hlen, hv2']
    have hpm := pixelmatch_ok (decode g).data (decode cfg.screenshotBytes).data
      (List.replicate (decode cfg.screenshotBytes).data.length 0)
      (decode cfg.screenshotBytes).width (decode cfg.screenshotBytes).height hlen hlen2
    by_cases hn : diffCount (decode g).data (decode cfg.screenshotBytes).data
        (decode cfg.screenshotBytes).width (decode cfg.screenshotBytes).height = 0 <;>
      simp [mainRun, hap, hf, hg, Faults.noFailures, hpm, hn]

/-- Witness for C7 at the concrete one-differing-pixel verify run. -/
theorem c7_verify_golden_readonly_witness :
    cfgOnePixel.approveGolden = false ∧
    cfgOnePixel.screenshotDiffPath ≠ cfgOnePixel.goldenPath ∧
    ((∀ b, Event.writeFile cfgOnePixel.goldenPath b ∉
        (mainRun toyDecode toyEncode cfgOnePixel).1) ∧
    (∀ g, cfgOnePixel.goldenFile = some g →
      cfgOnePixel.faults = Faults.noFailures →
      (toyDecode g).width = (toyDecode cfgOnePixel.screenshotBytes).width →
      (toyDecode g).height = (toyDecode cfgOnePixel.screenshotBytes).height →
      (toyDecode g).valid → (toyDecode cfgOnePixel.screenshotBytes).valid →
      ((∃ b, Event.writeFile cfgOnePixel.screenshotDiffPath b ∈
          (mainRun toyDecode toyEncode cfgOnePixel).1) ↔
        diffCount (toyDecode g).data (toyDecode cfgOnePixel.screenshotBytes).data
          (toyDecode cfgOnePixel.screenshotBytes).width
          (toyDecode cfgOnePixel.screenshotBytes).height ≠ 0))) :=
  ⟨rfl, by decide,
    c7_verify_golden_readonly toyDecode toyEncode cfgOnePixel rfl (by decide)⟩
